import Mathlib

/-!
Verification development for the build-configuration and acquisition
pipeline of this repository (a CLI orchestration layer that downloads a
browser-engine source archive, unpacks it and merges mozconfig
fragments).  The definitions below are shallow embeddings of
`src/commands/download.ts` and `src/constants/mozconfig.ts`; ambient
effects (file system, subprocess output, network, log output) are made
explicit as parameters, state values and event traces.
-/

/-! ## Template renderer (spec-modelled)

Modelled from the spec: the `stringTemplate` helper lives in `src/utils`,
which is not part of the two included source files.  Per the spec it
replaces every occurrence of each present key's `\x7b\x7bkey\x7d\x7d`
placeholder with its value and leaves placeholders of absent keys
unchanged; it is total. -/

/-- Drops `pat` from the head of `text`: returns `some rest` when `text`
starts with `pat` (with `rest` the remainder) and `none` otherwise. -/
def dropPre : List Char → List Char → Option (List Char)
  | [], text => some text
  | _ :: _, [] => none
  | p :: ps, c :: cs => if p = c then dropPre ps cs else none

/-- Whether `pat` occurs as a contiguous substring of `text`. -/
def occursIn (pat : List Char) : List Char → Bool
  | [] => pat.isEmpty
  | c :: cs => (dropPre pat (c :: cs)).isSome || occursIn pat cs

/-- Fuelled global replacement of `pat` by `rep`, scanning left to right
without rescanning replaced output.  The wrapper `replaceAll` supplies
`text.length` as fuel, which suffices because every step consumes at
least one character of `text` when `pat` is non-empty. -/
def replaceAllAux (pat rep : List Char) : Nat → List Char → List Char
  | _, [] => []
  | 0, text => text
  | fuel + 1, c :: cs =>
    match dropPre pat (c :: cs) with
    | some rest => rep ++ replaceAllAux pat rep fuel rest
    | none => c :: replaceAllAux pat rep fuel cs

/-- Modelled from the spec: replace every occurrence of `pat` in `text`
by `rep` (best-effort, no recursive expansion). -/
def replaceAll (pat rep text : List Char) : List Char :=
  if pat = [] then text else replaceAllAux pat rep text.length text

/-- The placeholder syntax for a template key. -/
def placeholder (key : String) : String := "\x7b\x7b" ++ key ++ "\x7d\x7d"

/-- Modelled from the spec: the template renderer of `src/utils`
(`stringTemplate`, not under the included sources).  Substitutes each
mapping entry's placeholder throughout the template, one key after the
other; keys absent from the mapping leave their placeholders untouched. -/
def stringTemplate (template : String) (opts : List (String × String)) : String :=
  opts.foldl (fun acc kv => String.mk (replaceAll (placeholder kv.1).data kv.2.data acc.data)) template

/-! ## Build-mode settings generator (`src/constants/mozconfig.ts`)

The module-level values `(process as any).surferPlatform` and
`config.updateHostname` are ambient inputs of the source module; they are
passed explicitly here. -/

/-- The `otherBuildModes` comment block of `src/constants/mozconfig.ts`. -/
def otherBuildModes : String :=
  "# You can change to other build modes by running:\n#   $ surfer set buildMode [dev|debug|release]"

/-- Embeds `getPlatformOptimiseFlags` of `src/constants/mozconfig.ts`,
with the ambient `process.surferPlatform` as a parameter. -/
def getPlatformOptimiseFlags (surferPlatform : String) : String :=
  if surferPlatform = "linux" then
    "ac_add_options --enable-optimize=\"-march=x86-64 -msse3 -mtune=haswell -O3 -w\""
  else if surferPlatform = "darwin" then
    "ac_add_options --enable-optimize=\"-O3 -march=nehalem -mtune=haswell -w\""
  else if surferPlatform = "win32" then
    "ac_add_options --enable-optimize=\"-clang:-march=x86-64 -clang:-msse3 -clang:-mtune=haswell -clang:-O3 -w\""
  else "# Unknown platform " ++ surferPlatform

/-- The `buildOptions` switch inside `internalMozconfg`: the
mode-specific settings block, defaulting to the unknown-mode comment. -/
def buildModeOptions (buildMode platformOptimize : String) : String :=
  if buildMode = "dev" then
    "# Development build settings\n" ++ otherBuildModes ++ "\nac_add_options --disable-debug"
  else if buildMode = "debug" then
    "# Debug build settings\n" ++ otherBuildModes ++
      "\nac_add_options --enable-debug\nac_add_options --disable-optimize"
  else if buildMode = "release" then
    "# Release build settings\nac_add_options --disable-debug\nac_add_options --enable-optimize\nac_add_options --enable-rust-simd\n"
      ++ platformOptimize ++ " # Taken from waterfox"
  else "# Unknown build mode " ++ buildMode

/-- The `config.updateHostname || 'localhost:7648 # This should not resolve'`
fallback: an unset or empty (JS-falsy) hostname yields the placeholder. -/
def updateHostValue : Option String → String
  | some h => if h = "" then "localhost:7648 # This should not resolve" else h
  | none => "localhost:7648 # This should not resolve"

/-- Embeds `internalMozconfg` of `src/constants/mozconfig.ts`: the
template literal returned by the function, with the interpolations
(`buildOptions`, `brand` twice, the update host) spliced between the
literal text segments. -/
def internalMozconfg (brand buildMode surferPlatform : String) (updateHostname : Option String) : String :=
  "\n# =====================\n# Internal surfer config\n# =====================\n\n" ++
  (buildModeOptions buildMode (getPlatformOptimiseFlags surferPlatform) ++
  ("\nac_add_options --disable-geckodriver\nac_add_options --disable-profiling\nac_add_options --disable-tests\n\n# Custom branding\n" ++
  ("ac_add_options --with-branding=browser/branding/" ++
  (brand ++
  ("\n\n# Config for updates\nac_add_options --enable-unverified-updates\n" ++
  ("ac_add_options --enable-update-channel=" ++
  (brand ++
  ("\nexport MOZ_APPUPDATE_HOST=" ++
  (updateHostValue updateHostname ++ "\n")))))))))

/-- Substring containment at the `String` level, witnessed by an explicit
split of the ambient string. -/
def containsStr (s sub : String) : Prop := ∃ pre post, s = pre ++ (sub ++ post)

/-! ## Config merger (`applyConfig` in `src/commands/download.ts`)

File contents (the common, OS-specific and optional user-override
fragments) and the result of the external `git rev-parse HEAD` call are
ambient inputs of the source function and are passed explicitly.  The
file system is a path-to-contents map threaded through the write. -/

/-- The fields of the ambient `config` object that `applyConfig` reads. -/
structure MelonConfig where
  name : String
  appId : String
  binaryName : String
deriving DecidableEq

/-- File system as a finite map from path to file contents. -/
abbrev FileSystem := List (String × String)

/-- Reads a file, `none` when absent. -/
def readFile (fs : FileSystem) (path : String) : Option String :=
  (fs.find? (fun e => e.1 == path)).map (fun e => e.2)

/-- Embeds `writeFileSync`: fully replaces any previous contents at
`path`. -/
def writeFileSync (fs : FileSystem) (path content : String) : FileSystem :=
  (path, content) :: fs.filter (fun e => !(e.1 == path))

/-- Modelled from the spec: the fixed canonical engine directory name
(`ENGINE_DIR` lives in `src/constants`, not under the included sources;
the tar transform renames the archive's top level to `engine`). -/
def ENGINE_DIR : String := "engine"

/-- The fixed output path `resolve(ENGINE_DIR, 'mozconfig')`. -/
def engineMozconfigPath : String := ENGINE_DIR ++ "/mozconfig"

/-- The four coaching messages `applyConfig` logs, in order, when the
`git rev-parse HEAD` invocation fails. -/
def gitWarnings : List String :=
  ["Melon expects that you are building your browser with git as your version control",
   "If you are using some other version control system, please migrate to git",
   "Otherwise, you can setup git in this folder by running:",
   "   |git init|"]

/-- The `templateOptions` record built by `applyConfig`, as a key-value
list in source order. -/
def templateOptions (cfg : MelonConfig) (brandingMelonExists : Bool) (changeset : String) :
    List (String × String) :=
  [("name", cfg.name), ("vendor", cfg.name), ("appId", cfg.appId),
   ("brandingDir", if brandingMelonExists then "branding/melon" else "branding/unofficial"),
   ("binName", cfg.binaryName), ("changeset", changeset)]

/-- The generated-file banner comment heading the merged mozconfig. -/
def mozconfigBanner : String :=
  "# This file is automatically generated. You should only modify this if you know what you are doing!"

/-- The `internalConfig` marker fragment of `applyConfig`. -/
def internalConfig : String := "# Internally defined by melon"

/-- The `mergedConfig` concatenation of `applyConfig`: banner, common,
OS-specific, user-override and internal fragments, a blank line between
each adjacent pair. -/
def mergedConfig (commonConfig osConfig customConfig : String) : String :=
  mozconfigBanner ++ "\n\n" ++ commonConfig ++ "\n\n" ++ osConfig ++ "\n\n"
    ++ customConfig ++ "\n\n" ++ internalConfig

/-- Embeds `applyConfig` of `src/commands/download.ts`.  `gitResult` is
the outcome of `execa('git', ['rev-parse', 'HEAD'])`; `commonFile` and
`osFile` are the fragment file contents (reading them is ambient I/O,
and a read failure there is fatal upstream of this model); `customFile`
is `none` when no root `mozconfig` override exists.  Returns the logged
warnings together with either the propagated error (nothing written) or
the file system after the single overwriting write. -/
def applyConfig (cfg : MelonConfig) (gitResult : Except String String)
    (commonFile osFile : String) (customFile : Option String)
    (brandingMelonExists : Bool) (fs : FileSystem) :
    List String × Except String FileSystem :=
  match gitResult with
  | Except.error e => (gitWarnings, Except.error e)
  | Except.ok stdout =>
    let changeset := stdout.trim
    let topts := templateOptions cfg brandingMelonExists changeset
    let commonConfig := stringTemplate commonFile topts
    let osConfig := stringTemplate osFile topts
    let customConfig := stringTemplate (customFile.getD "") topts
    ([], Except.ok (writeFileSync fs engineMozconfigPath
      (mergedConfig commonConfig osConfig customConfig)))

/-! ## Acquisition supervisor (`downloadFirefoxSource` in
`src/commands/download.ts`)

The log calls and the network fetch are made explicit as an event
trace.  Modelled from the spec: `log.error` (module `src/log`, not under
the included sources) records a diagnostic; per the spec's design notes
the source does not terminate the process after logging these
pre-existing-state diagnostics, so execution continues past them. -/

/-- Observable events of the download flow, in emission order. -/
inductive Ev where
  | info (msg : String)
  | warning (msg : String)
  | error (msg : String)
  | netFetch (url : String)
deriving DecidableEq

/-- The `https://archive.mozilla.org/pub/firefox/releases/<v>/source/`
base, as built in `downloadFirefoxSource`. -/
def firefoxSourceBase (version : String) : String :=
  "https://archive.mozilla.org/pub/firefox/releases/" ++ version ++ "/source/"

/-- The `firefox-<v>.source.tar.xz` archive file name. -/
def firefoxSourceFileName (version : String) : String :=
  "firefox-" ++ version ++ ".source.tar.xz"

/-- The resolved download URL `base + filename`. -/
def firefoxSourceUrl (version : String) : String :=
  firefoxSourceBase version ++ firefoxSourceFileName version

/-- `version.split('b')[0]`: the version stripped of any pre-release
(beta) suffix. -/
def stripBeta (version : String) : String :=
  (version.splitOn "b").headD version

/-- The diagnostic logged when `.dotbuild/engines/firefox-<stripped>`
already exists (the source message also embeds the resolved absolute
path, elided here as it depends on the ambient working directory). -/
def versionExistsMsg (version : String) : String :=
  "Cannot download version " ++ stripBeta version ++ " as it already exists"

/-- The beta advisory logged when the version string contains `b`. -/
def betaAdvisoryMsg : String :=
  "Version includes non-numeric characters. This is probably a beta."

/-- The diagnostic logged when the engine workspace directory exists. -/
def workspaceExistsMsg : String :=
  "Workspace already exists.\nRemove that workspace and run the download again."

/-- Embeds `downloadFirefoxSource`: the emitted event trace in source
order and the returned archive file name.  `versionWorkspaceExists` is
`existsSync('.dotbuild/engines/firefox-<stripped>')`;
`engineDirExists` is `existsSync(ENGINE_DIR)`. -/
def downloadFirefoxSource (version : String)
    (versionWorkspaceExists engineDirExists : Bool) : List Ev × String :=
  let url := firefoxSourceBase version ++ firefoxSourceFileName version
  let evs :=
    [Ev.info ("Locating Firefox release " ++ version ++ "...")]
    ++ (if versionWorkspaceExists then [Ev.error (versionExistsMsg version)] else [])
    ++ (if version.data.contains 'b' then [Ev.warning betaAdvisoryMsg] else [])
    ++ (if engineDirExists then [Ev.error workspaceExistsMsg] else [])
    ++ [Ev.info ("Downloading Firefox release " ++ version ++ "..."), Ev.netFetch url]
  (evs, firefoxSourceFileName version)

/-! ## Unpack preparation and progress parsing
(`unpackFirefoxSource` / `onData` in `src/commands/download.ts`) -/

/-- The engine directory's state: `none` when absent, otherwise the list
of entries it contains. -/
abbrev DirState := Option (List String)

/-- Embeds Node's `rmdirSync` (no `recursive` option): removes the
directory only when it exists and is empty, otherwise throws (`ENOENT`
on an absent path, `ENOTEMPTY` on a non-empty directory). -/
def rmdirSync : DirState → Except Unit DirState
  | none => Except.error ()
  | some [] => Except.ok none
  | some (_ :: _) => Except.error ()

/-- Embeds `ensureDirSync`: creates the directory when absent, leaves it
untouched (contents included) when present. -/
def ensureDirSync : DirState → DirState
  | none => some []
  | some es => some es

/-- The pre-tar preparation of `unpackFirefoxSource`:
`try { rmdirSync(ENGINE_DIR) } catch {}` followed by
`ensureDirSync(ENGINE_DIR)`. -/
def prepareEngineDir (d : DirState) : DirState :=
  ensureDirSync (match rmdirSync d with
    | Except.ok d2 => d2
    | Except.error _ => d)

/-- `line.split(' ')` followed by `shift()` and `join(' ')`: the line
with its leading space-delimited token (and one separator) removed; a
line with no space collapses to the empty string. -/
def stripFirstToken (line : String) : String :=
  String.intercalate " " ((line.splitOn " ").drop 1)

/-- The per-line update of `onData`: a line that is not whitespace-only
replaces the progress text by its token-stripped form, any other line
leaves it unchanged. -/
def onDataStep (acc line : String) : String :=
  if line.trim.length ≠ 0 then stripFirstToken line else acc

/-- Embeds the `onData` chunk handler: splits the chunk on newlines and
folds the per-line update over the current progress text. -/
def onData (progress data : String) : String :=
  (data.splitOn "\n").foldl onDataStep progress

/-! ## Helper lemmas -/

/-- Replacement leaves a text without any occurrence of the pattern
unchanged, for every fuel value. -/
theorem replaceAllAux_of_not_occursIn (pat rep : List Char) (fuel : Nat) (text : List Char)
    (h : occursIn pat text = false) : replaceAllAux pat rep fuel text = text := by
  induction text generalizing fuel with
  | nil => cases fuel <;> rfl
  | cons c cs ih =>
    simp only [occursIn, Bool.or_eq_false_iff] at h
    cases fuel with
    | zero => rfl
    | succ f =>
      cases hdrop : dropPre pat (c :: cs) with
      | some r => simp [hdrop] at h
      | none => simp [replaceAllAux, hdrop, ih f h.2]

/-- Replacement leaves a text without any occurrence of the pattern
unchanged. -/
theorem replaceAll_of_not_occursIn (pat rep text : List Char)
    (h : occursIn pat text = false) : replaceAll pat rep text = text := by
  unfold replaceAll
  split
  · rfl
  · exact replaceAllAux_of_not_occursIn pat rep text.length text h

/-- Rendering a template in which no placeholder of the mapping occurs
returns the template unchanged. -/
theorem stringTemplate_of_no_placeholder (t : String) (opts : List (String × String))
    (h : ∀ kv ∈ opts, occursIn (placeholder kv.1).data t.data = false) :
    stringTemplate t opts = t := by
  induction opts with
  | nil => rfl
  | cons kv rest ih =>
    have hstep : String.mk (replaceAll (placeholder kv.1).data kv.2.data t.data) = t := by
      rw [replaceAll_of_not_occursIn _ _ _ (h kv (List.mem_cons_self kv rest))]
    calc stringTemplate t (kv :: rest)
        = stringTemplate (String.mk (replaceAll (placeholder kv.1).data kv.2.data t.data)) rest := rfl
      _ = stringTemplate t rest := by rw [hstep]
      _ = t := ih (fun kv2 hm => h kv2 (List.mem_cons_of_mem _ hm))

/-- Reading back the path just written returns exactly the new
contents, whatever was there before. -/
theorem readFile_writeFileSync (fs : FileSystem) (p c : String) :
    readFile (writeFileSync fs p c) p = some c := by
  simp [readFile, writeFileSync, List.find?]

/-- Folding the per-line progress update over a list of lines yields the
token-stripped form of the last non-whitespace line, or the initial
progress text when every line is whitespace-only. -/
theorem foldl_onDataStep (lines : List String) (st : String) :
    lines.foldl onDataStep st =
      (((lines.filter (fun l => decide (l.trim.length ≠ 0))).getLast?).map stripFirstToken).getD st := by
  induction lines generalizing st with
  | nil => rfl
  | cons a rest ih =>
    rw [List.foldl_cons, ih (onDataStep st a), List.filter_cons]
    by_cases h : a.trim.length ≠ 0
    · rw [if_pos (by simpa using h)]
      have ha : onDataStep st a = stripFirstToken a := if_pos h
      cases hfr : rest.filter (fun l => decide (l.trim.length ≠ 0)) with
      | nil => simp [hfr, ha]
      | cons b bs =>
        rw [List.getLast?_cons_cons]
        cases hl : (b :: bs).getLast? with
        | some l => simp
        | none => exact absurd (List.getLast?_eq_none_iff.mp hl) (by simp)
    · rw [if_neg (by simpa using h)]
      rw [show onDataStep st a = st from if_neg h]

/-- Appending the literal `firefox-` after `/source/` merges the two
literal segments of the URL. -/
theorem source_firefox_append (x : String) :
    "/source/" ++ ("firefox-" ++ x) = "/source/firefox-" ++ x := by
  rw [← String.append_assoc]
  rfl

/-! ## Claims -/

/-- Claim C1, code-bug evidence: with the workspace for version `115.0`
already present, the flow logs the would-overwrite diagnostic yet the
network fetch of the archive is still started afterwards — the download
is not blocked, contrary to the claim (and to the source's own
`Do not re-download...` comment). -/
theorem c1_existing_workspace_does_not_block_download :
    Ev.error (versionExistsMsg "115.0") ∈ (downloadFirefoxSource "115.0" true false).1
    ∧ Ev.netFetch (firefoxSourceUrl "115.0") ∈ (downloadFirefoxSource "115.0" true false).1 := by
  constructor <;> simp [downloadFirefoxSource, firefoxSourceUrl]

/-- Claim C2: with the changeset resolved, the config merger writes to
the fixed `engine/mozconfig` path — fully overwriting whatever any prior
file system held there — exactly the banner, the rendered common fragment,
the rendered OS fragment, the rendered user-override fragment and the
internal fragment, in this order, a blank line between each adjacent
pair. -/
theorem c2_merged_mozconfig_layout_and_overwrite (cfg : MelonConfig)
    (stdout commonFile osFile : String) (customFile : Option String)
    (bme : Bool) (fs : FileSystem) :
    ∃ fs2,
      applyConfig cfg (Except.ok stdout) commonFile osFile customFile bme fs = ([], Except.ok fs2)
      ∧ readFile fs2 engineMozconfigPath =
          some (mozconfigBanner ++ "\n\n"
            ++ stringTemplate commonFile (templateOptions cfg bme stdout.trim) ++ "\n\n"
            ++ stringTemplate osFile (templateOptions cfg bme stdout.trim) ++ "\n\n"
            ++ stringTemplate (customFile.getD "") (templateOptions cfg bme stdout.trim) ++ "\n\n"
            ++ internalConfig) := by
  refine ⟨_, rfl, ?_⟩
  rw [readFile_writeFileSync]
  rfl

/-- Claim C3, counterexample: for build mode `bogus` the generator's
output is not just the single unknown-mode comment — it also carries the
unconditional internal block. -/
theorem c3_counterexample_output_is_more_than_comment :
    internalMozconfg "melon" "bogus" "linux" none ≠ "# Unknown build mode bogus" := by
  decide

set_option maxRecDepth 100000 in
/-- Claim C3, amended: for any mode outside `dev`, `debug` and
`release`, the mode-specific settings block is exactly the single
comment naming the mode as unknown, and the full output for mode
`bogus` contains no debug flag and no optimize flag. -/
theorem c3_unknown_mode_block_and_no_flags (mode platformOptimize : String)
    (h1 : mode ≠ "dev") (h2 : mode ≠ "debug") (h3 : mode ≠ "release") :
    buildModeOptions mode platformOptimize = "# Unknown build mode " ++ mode
    ∧ occursIn "--enable-debug".data (internalMozconfg "melon" "bogus" "linux" none).data = false
    ∧ occursIn "--disable-debug".data (internalMozconfg "melon" "bogus" "linux" none).data = false
    ∧ occursIn "--enable-optimize".data (internalMozconfg "melon" "bogus" "linux" none).data = false
    ∧ occursIn "--disable-optimize".data (internalMozconfg "melon" "bogus" "linux" none).data = false := by
  refine ⟨?_, by decide, by decide, by decide, by decide⟩
  simp [buildModeOptions, h1, h2, h3]

/-- Witness for the amended claim C3 at the concrete mode `bogus`. -/
theorem c3_unknown_mode_block_and_no_flags_witness :
    buildModeOptions "bogus" (getPlatformOptimiseFlags "linux") = "# Unknown build mode " ++ "bogus"
    ∧ occursIn "--enable-debug".data (internalMozconfg "melon" "bogus" "linux" none).data = false
    ∧ occursIn "--disable-debug".data (internalMozconfg "melon" "bogus" "linux" none).data = false
    ∧ occursIn "--enable-optimize".data (internalMozconfg "melon" "bogus" "linux" none).data = false
    ∧ occursIn "--disable-optimize".data (internalMozconfg "melon" "bogus" "linux" none).data = false :=
  c3_unknown_mode_block_and_no_flags "bogus" (getPlatformOptimiseFlags "linux")
    (by decide) (by decide) (by decide)

/-- Claim C4, counterexample: on a git failure the merger logs four
coaching warnings, not the three the claim states. -/
theorem c4_counterexample_four_not_three_warnings :
    (applyConfig ⟨"Dot", "org.dot.browser", "dot"⟩ (Except.error "git failed")
      "" "" none false []).1.length ≠ 3 := by
  decide

/-- Claim C4, amended: when the changeset resolution fails, the merger
emits exactly four successive coaching warnings, re-raises the failure
and writes no configuration. -/
theorem c4_git_failure_warns_four_times_and_propagates (cfg : MelonConfig)
    (e commonFile osFile : String) (customFile : Option String)
    (bme : Bool) (fs : FileSystem) :
    applyConfig cfg (Except.error e) commonFile osFile customFile bme fs
      = (gitWarnings, Except.error e)
    ∧ gitWarnings.length = 4 :=
  ⟨rfl, rfl⟩

/-- Claim C5: the renderer keeps placeholders of absent keys verbatim —
in particular the `missing` placeholder under the empty mapping — and
substitutes every occurrence of a present key's placeholder. -/
theorem c5_renderer_preserves_unknown_placeholders (t : String)
    (opts : List (String × String))
    (h : ∀ kv ∈ opts, occursIn (placeholder kv.1).data t.data = false) :
    stringTemplate "\x7b\x7bmissing\x7d\x7d" [] = "\x7b\x7bmissing\x7d\x7d"
    ∧ stringTemplate t opts = t
    ∧ stringTemplate "\x7b\x7bk\x7d\x7d and \x7b\x7bk\x7d\x7d" [("k", "v")] = "v and v" :=
  ⟨rfl, stringTemplate_of_no_placeholder t opts h, by decide⟩

/-- Witness for claim C5 on a template mentioning no mapped key. -/
theorem c5_renderer_preserves_unknown_placeholders_witness :
    stringTemplate "\x7b\x7bmissing\x7d\x7d" [] = "\x7b\x7bmissing\x7d\x7d"
    ∧ stringTemplate "xyz" [("a", "b")] = "xyz"
    ∧ stringTemplate "\x7b\x7bk\x7d\x7d and \x7b\x7bk\x7d\x7d" [("k", "v")] = "v and v" :=
  c5_renderer_preserves_unknown_placeholders "xyz" [("a", "b")] (by decide)

/-- Claim C6, counterexample: a non-empty pre-existing engine directory
survives the pre-unpack preparation with its contents intact — the
removal (`rmdirSync` without `recursive`) throws `ENOTEMPTY`, the error
is swallowed, and extraction does not start into a fresh directory. -/
theorem c6_counterexample_nonempty_dir_retained :
    prepareEngineDir (some ["leftover.txt"]) = some ["leftover.txt"]
    ∧ prepareEngineDir (some ["leftover.txt"]) ≠ some [] :=
  ⟨rfl, by decide⟩

/-- Claim C6, amended: the pre-unpack preparation yields a fresh empty
engine directory only when the directory was absent or empty; a
non-empty pre-existing directory is left in place with its contents
retained. -/
theorem c6_prepare_fresh_only_when_empty_or_absent (d : DirState) :
    prepareEngineDir d =
      match d with
      | none => some []
      | some [] => some []
      | some (e :: es) => some (e :: es) := by
  rcases d with _ | (_ | ⟨e, es⟩) <;> rfl

/-- Claim C7: a chunk handed to the line parser leaves the progress
text at the token-stripped form of the chunk's last
non-whitespace-only line, and unchanged when every line of the chunk is
whitespace-only. -/
theorem c7_progress_text_tracks_last_nonempty_line (progress data : String) :
    onData progress data =
      ((((data.splitOn "\n").filter (fun l => decide (l.trim.length ≠ 0))).getLast?).map
        stripFirstToken).getD progress :=
  foldl_onDataStep (data.splitOn "\n") progress

/-- Claim C8: a version string containing `b` always produces the beta
advisory warning, and the network fetch of the archive still appears in
the trace — the advisory does not block the download. -/
theorem c8_beta_advisory_nonfatal (version : String) (vwe ede : Bool)
    (h : version.data.contains 'b' = true) :
    Ev.warning betaAdvisoryMsg ∈ (downloadFirefoxSource version vwe ede).1
    ∧ Ev.netFetch (firefoxSourceUrl version) ∈ (downloadFirefoxSource version vwe ede).1 := by
  have hm : 'b' ∈ version.data := by simpa using h
  cases vwe <;> cases ede <;>
    simp [downloadFirefoxSource, firefoxSourceUrl, hm]

/-- Witness for claim C8 at the beta-looking version `115.0b3`. -/
theorem c8_beta_advisory_nonfatal_witness :
    Ev.warning betaAdvisoryMsg ∈ (downloadFirefoxSource "115.0b3" false false).1
    ∧ Ev.netFetch (firefoxSourceUrl "115.0b3") ∈ (downloadFirefoxSource "115.0b3" false false).1 :=
  c8_beta_advisory_nonfatal "115.0b3" false false (by decide)

/-- Claim C9: the resolved download URL follows the
`https://archive.mozilla.org/pub/firefox/releases/<v>/source/firefox-<v>.source.tar.xz`
scheme for every version string, and in particular for `115.0`. -/
theorem c9_download_url_scheme (v : String) :
    firefoxSourceUrl v =
      "https://archive.mozilla.org/pub/firefox/releases/" ++ v ++ "/source/firefox-" ++ v
        ++ ".source.tar.xz"
    ∧ firefoxSourceUrl "115.0" =
      "https://archive.mozilla.org/pub/firefox/releases/115.0/source/firefox-115.0.source.tar.xz" := by
  constructor
  · simp only [firefoxSourceUrl, firefoxSourceBase, firefoxSourceFileName, String.append_assoc,
      source_firefox_append]
  · decide

/-- Claim C10: for every brand and build mode the internal fragment
carries both the branding line and the update-channel line, each
interpolating the same brand string — update channel and branding
selector are coupled. -/
theorem c10_update_channel_equals_branding (brand buildMode surferPlatform : String)
    (updateHostname : Option String) :
    containsStr (internalMozconfg brand buildMode surferPlatform updateHostname)
      ("ac_add_options --with-branding=browser/branding/" ++ brand)
    ∧ containsStr (internalMozconfg brand buildMode surferPlatform updateHostname)
      ("ac_add_options --enable-update-channel=" ++ brand) := by
  constructor
  · refine ⟨"\n# =====================\n# Internal surfer config\n# =====================\n\n"
      ++ (buildModeOptions buildMode (getPlatformOptimiseFlags surferPlatform)
      ++ "\nac_add_options --disable-geckodriver\nac_add_options --disable-profiling\nac_add_options --disable-tests\n\n# Custom branding\n"),
      "\n\n# Config for updates\nac_add_options --enable-unverified-updates\n"
      ++ ("ac_add_options --enable-update-channel="
      ++ (brand ++ ("\nexport MOZ_APPUPDATE_HOST="
      ++ (updateHostValue updateHostname ++ "\n")))), ?_⟩
    simp [internalMozconfg, String.append_assoc]
  · refine ⟨"\n# =====================\n# Internal surfer config\n# =====================\n\n"
      ++ (buildModeOptions buildMode (getPlatformOptimiseFlags surferPlatform)
      ++ ("\nac_add_options --disable-geckodriver\nac_add_options --disable-profiling\nac_add_options --disable-tests\n\n# Custom branding\n"
      ++ ("ac_add_options --with-branding=browser/branding/"
      ++ (brand
      ++ "\n\n# Config for updates\nac_add_options --enable-unverified-updates\n")))),
      "\nexport MOZ_APPUPDATE_HOST=" ++ (updateHostValue updateHostname ++ "\n"), ?_⟩
    simp [internalMozconfg, String.append_assoc]
